import Mathlib

/-
Verification of py/stabilizer/set_pid.py: a CLI utility that resolves a
Stabilizer device over MQTT and performs one configuration write to one
PID channel, converting voltage parameters to device machine units.

The script body is embedded shallowly: external network calls (discovery,
session creation, the set write) are modelled by an environment record
stating their outcomes, and one invocation produces a trace of observable
events together with an optional error, mirroring the straight-line
control flow of `_main` and its inner async `configure`.
-/

namespace SetPid

/-- Modelled from the spec: `stabilizer.voltage_to_machine_units` lives in the
repository's `py/stabilizer` package, which is not among the given sources.
Per the spec, the converted value equals
`voltage * (machine_range / full_scale_voltage)`, rounded to the nearest
machine unit. Voltages are embedded as rationals. -/
def voltage_to_machine_units (fullScale machineRange v : ℚ) : ℤ :=
  round (v * machineRange / fullScale)

/-- The parsed command-line arguments of `_main` that reach the core logic. -/
structure Args where
  broker : String
  pattern : String
  no_discover : Bool
  channel : ℕ
  sample_period : ℚ
  x_offset : ℚ
  y_min : ℚ
  y_max : ℚ
  y_offset : ℚ
  p : ℚ
  i : ℚ
  d : ℚ
  i_limit : ℚ
deriving DecidableEq

/-- A value in the configuration payload: the gains stay floating values,
the converted fields are machine-unit integers. -/
inductive Val
  | float (q : ℚ)
  | int (z : ℤ)
deriving DecidableEq

/-- Observable events of one invocation, in order of occurrence. -/
inductive Event
  | discover (broker pattern : String)
  | connect (addr broker : String)
  | convert
  | write (path : String) (payload : List (String × Val))
  | ack
deriving DecidableEq

/-- Error outcomes. The two resolution errors mirror the two
`raise ValueError` sites in `_main`; the session errors model failures of
the awaited `Miniconf.create` and `interface.set` network calls, which the
script does not catch. -/
inductive Err
  | noDeviceFound
  | ambiguousDeviceMatch (devices : List String)
  | connectionFailed
  | writeFailed
deriving DecidableEq

/-- External environment of one invocation: the device prefixes the
discovery call returns, and whether session creation and the set call
succeed. -/
structure Ext where
  devices : List String
  connectOk : Bool
  writeOk : Bool
deriving DecidableEq

/-- The configuration path built in `configure`: a leading slash, then
`pid_ch/`, then the channel number. -/
def configPath (channel : ℕ) : String :=
  "/pid_ch/" ++ toString channel

/-- The dict literal passed to `interface.set` in `configure`: gains p, i, d
as given, the five voltage parameters converted to machine units. -/
def payloadDict (fullScale machineRange : ℚ) (a : Args) : List (String × Val) :=
  [("p", Val.float a.p),
   ("i", Val.float a.i),
   ("d", Val.float a.d),
   ("x_offset", Val.int (voltage_to_machine_units fullScale machineRange a.x_offset)),
   ("y_offset", Val.int (voltage_to_machine_units fullScale machineRange a.y_offset)),
   ("y_min", Val.int (voltage_to_machine_units fullScale machineRange a.y_min)),
   ("y_max", Val.int (voltage_to_machine_units fullScale machineRange a.y_max)),
   ("i_limit", Val.int (voltage_to_machine_units fullScale machineRange a.i_limit))]

/-- The inner async `configure`: create one session to the resolved device
over the broker, build the payload (evaluating the conversions), issue one
set write, return on acknowledgment. A failing create or set raises and is
not retried. -/
def configure (fullScale machineRange : ℚ) (a : Args) (addr : String) (ext : Ext) :
    List Event × Option Err :=
  if ext.connectOk then
    if ext.writeOk then
      ([Event.connect addr a.broker, Event.convert,
        Event.write (configPath a.channel) (payloadDict fullScale machineRange a),
        Event.ack], none)
    else
      ([Event.connect addr a.broker, Event.convert,
        Event.write (configPath a.channel) (payloadDict fullScale machineRange a)],
       some Err.writeFailed)
  else ([], some Err.connectionFailed)

/-- The body of `_main` after argument parsing: if discovery is disabled the
pattern itself is the prefix; otherwise discover, fail on zero or on more
than one match, and configure the single match. -/
def runMain (fullScale machineRange : ℚ) (a : Args) (ext : Ext) :
    List Event × Option Err :=
  if a.no_discover then
    configure fullScale machineRange a a.pattern ext
  else
    match ext.devices with
    | [] => ([Event.discover a.broker a.pattern], some Err.noDeviceFound)
    | [dev] =>
        (Event.discover a.broker a.pattern ::
           (configure fullScale machineRange a dev ext).1,
         (configure fullScale machineRange a dev ext).2)
    | devs => ([Event.discover a.broker a.pattern], some (Err.ambiguousDeviceMatch devs))

/-- Selects the write events of a trace. -/
def isWrite : Event → Bool
  | Event.write _ _ => true
  | _ => false

/-- Selects the discovery events of a trace. -/
def isDiscover : Event → Bool
  | Event.discover _ _ => true
  | _ => false

/-- Concrete arguments for witnesses: the spec's worked example (channel 0,
P=1.5, I=0.2, D=0, i_limit=5 V) with CLI defaults for the remaining flags,
taking the spec's example full scale of 10 V for the output-range defaults. -/
def exArgs : Args :=
  { broker := "mqtt", pattern := "dt/sinara/dual-pid/+", no_discover := false,
    channel := 0, sample_period := 0, x_offset := 0, y_min := -10, y_max := 10,
    y_offset := 0, p := 3/2, i := 1/5, d := 0, i_limit := 5 }

/-- An environment where exactly one device answers and the session and the
write succeed. -/
def extOk : Ext :=
  { devices := ["dt/sinara/dual-pid/lab1"], connectOk := true, writeOk := true }

/-- Any write event of `configure` carries the channel path and the payload
dict. -/
theorem write_mem_configure (fullScale machineRange : ℚ) (a : Args) (addr : String)
    (ext : Ext) (path : String) (pay : List (String × Val))
    (h : Event.write path pay ∈ (configure fullScale machineRange a addr ext).1) :
    path = configPath a.channel ∧ pay = payloadDict fullScale machineRange a := by
  unfold configure at h
  by_cases hc : ext.connectOk
  · by_cases hw : ext.writeOk
    · simp [hc, hw] at h
      exact h
    · simp [hc, hw] at h
      exact h
  · simp [hc] at h

/-- C1: every write issued by the configuration transactor carries the gains
p, i, d exactly as supplied, and the five voltage fields converted by the
voltage-to-machine-units transform applied independently to each. -/
theorem conversion_applied_per_field (fullScale machineRange : ℚ) (a : Args)
    (addr : String) (ext : Ext) (path : String) (pay : List (String × Val))
    (h : Event.write path pay ∈ (configure fullScale machineRange a addr ext).1) :
    pay.lookup "p" = some (Val.float a.p) ∧
    pay.lookup "i" = some (Val.float a.i) ∧
    pay.lookup "d" = some (Val.float a.d) ∧
    pay.lookup "x_offset" =
      some (Val.int (voltage_to_machine_units fullScale machineRange a.x_offset)) ∧
    pay.lookup "y_offset" =
      some (Val.int (voltage_to_machine_units fullScale machineRange a.y_offset)) ∧
    pay.lookup "y_min" =
      some (Val.int (voltage_to_machine_units fullScale machineRange a.y_min)) ∧
    pay.lookup "y_max" =
      some (Val.int (voltage_to_machine_units fullScale machineRange a.y_max)) ∧
    pay.lookup "i_limit" =
      some (Val.int (voltage_to_machine_units fullScale machineRange a.i_limit)) := by
  obtain ⟨-, hpay⟩ := write_mem_configure fullScale machineRange a addr ext path pay h
  subst hpay
  simp [payloadDict, List.lookup]

/-- C1 witness: the property at the concrete example invocation. -/
theorem conversion_applied_per_field_witness :
    Event.write (configPath exArgs.channel) (payloadDict 10 (2 ^ 15) exArgs) ∈
      (configure 10 (2 ^ 15) exArgs "dev" extOk).1 ∧
    ((payloadDict 10 (2 ^ 15) exArgs).lookup "p" = some (Val.float exArgs.p) ∧
     (payloadDict 10 (2 ^ 15) exArgs).lookup "i" = some (Val.float exArgs.i) ∧
     (payloadDict 10 (2 ^ 15) exArgs).lookup "d" = some (Val.float exArgs.d) ∧
     (payloadDict 10 (2 ^ 15) exArgs).lookup "x_offset" =
       some (Val.int (voltage_to_machine_units 10 (2 ^ 15) exArgs.x_offset)) ∧
     (payloadDict 10 (2 ^ 15) exArgs).lookup "y_offset" =
       some (Val.int (voltage_to_machine_units 10 (2 ^ 15) exArgs.y_offset)) ∧
     (payloadDict 10 (2 ^ 15) exArgs).lookup "y_min" =
       some (Val.int (voltage_to_machine_units 10 (2 ^ 15) exArgs.y_min)) ∧
     (payloadDict 10 (2 ^ 15) exArgs).lookup "y_max" =
       some (Val.int (voltage_to_machine_units 10 (2 ^ 15) exArgs.y_max)) ∧
     (payloadDict 10 (2 ^ 15) exArgs).lookup "i_limit" =
       some (Val.int (voltage_to_machine_units 10 (2 ^ 15) exArgs.i_limit))) :=
  ⟨List.Mem.tail _ (List.Mem.tail _ (List.Mem.head _)),
   conversion_applied_per_field 10 (2 ^ 15) exArgs "dev" extOk
     (configPath exArgs.channel) (payloadDict 10 (2 ^ 15) exArgs)
     (List.Mem.tail _ (List.Mem.tail _ (List.Mem.head _)))⟩

/-- C2 counterexample: at channel 0 the single write of a successful invocation
targets `configPath 0`, which is the nine-character string starting with a
slash, not the claimed eight-character path without one. -/
theorem config_path_counterexample :
    (configure 10 (2 ^ 15) exArgs "dev" extOk).1.filter isWrite =
      [Event.write (configPath 0) (payloadDict 10 (2 ^ 15) exArgs)] ∧
    configPath 0 = "/pid_ch/0" ∧
    ("/pid_ch/0" : String) ≠ "pid_ch/0" := by
  refine ⟨?_, by decide, by decide⟩
  rfl

/-- C2 (amended): for every channel selector in 0, 1 the write targets exactly the
path made of a slash, `pid_ch/` and the channel number, and the payload's field
names are exactly p, i, d, x_offset, y_offset, y_min, y_max, i_limit, with no
extra or missing fields. -/
theorem write_path_and_field_names (fullScale machineRange : ℚ) (a : Args)
    (addr : String) (ext : Ext) (path : String) (pay : List (String × Val))
    (hch : a.channel = 0 ∨ a.channel = 1)
    (h : Event.write path pay ∈ (configure fullScale machineRange a addr ext).1) :
    path = "/pid_ch/" ++ toString a.channel ∧
    pay.map Prod.fst =
      ["p", "i", "d", "x_offset", "y_offset", "y_min", "y_max", "i_limit"] := by
  obtain ⟨hp, hpay⟩ := write_mem_configure fullScale machineRange a addr ext path pay h
  subst hpay
  exact ⟨hp, rfl⟩

/-- C2 witness: the amended property at the concrete example invocation. -/
theorem write_path_and_field_names_witness :
    (exArgs.channel = 0 ∨ exArgs.channel = 1) ∧
    Event.write (configPath exArgs.channel) (payloadDict 10 (2 ^ 15) exArgs) ∈
      (configure 10 (2 ^ 15) exArgs "dev" extOk).1 ∧
    (configPath exArgs.channel = "/pid_ch/" ++ toString exArgs.channel ∧
     (payloadDict 10 (2 ^ 15) exArgs).map Prod.fst =
       ["p", "i", "d", "x_offset", "y_offset", "y_min", "y_max", "i_limit"]) :=
  ⟨Or.inl rfl, List.Mem.tail _ (List.Mem.tail _ (List.Mem.head _)),
   write_path_and_field_names 10 (2 ^ 15) exArgs "dev" extOk
     (configPath exArgs.channel) (payloadDict 10 (2 ^ 15) exArgs) (Or.inl rfl)
     (List.Mem.tail _ (List.Mem.tail _ (List.Mem.head _)))⟩

/-- An environment where discovery finds no device. -/
def extNone : Ext := { devices := [], connectOk := true, writeOk := true }

/-- An environment where discovery finds two devices. -/
def extTwo : Ext :=
  { devices := ["dt/sinara/dual-pid/lab1", "dt/sinara/dual-pid/lab2"],
    connectOk := true, writeOk := true }

/-- C3: with discovery enabled and zero matches, the invocation fails with the
no-device error and issues no configuration write. -/
theorem no_device_found (fullScale machineRange : ℚ) (a : Args) (ext : Ext)
    (hnd : a.no_discover = false) (hdev : ext.devices = []) :
    (runMain fullScale machineRange a ext).2 = some Err.noDeviceFound ∧
    (runMain fullScale machineRange a ext).1.filter isWrite = [] := by
  unfold runMain
  rw [hnd, hdev]
  simp [isWrite]

/-- C3 witness: the property at a concrete invocation with no discovered device. -/
theorem no_device_found_witness :
    exArgs.no_discover = false ∧ extNone.devices = [] ∧
    ((runMain 10 (2 ^ 15) exArgs extNone).2 = some Err.noDeviceFound ∧
     (runMain 10 (2 ^ 15) exArgs extNone).1.filter isWrite = []) :=
  ⟨rfl, rfl, no_device_found 10 (2 ^ 15) exArgs extNone rfl rfl⟩

/-- C4: with discovery enabled and two or more matches, the invocation fails with
the ambiguity error carrying exactly the matched addresses (as a set), and issues
no configuration write. -/
theorem ambiguous_device_match (fullScale machineRange : ℚ) (a : Args) (ext : Ext)
    (hnd : a.no_discover = false) (hdev : 2 ≤ ext.devices.length) :
    (∃ ds : List String,
       (runMain fullScale machineRange a ext).2 = some (Err.ambiguousDeviceMatch ds) ∧
       ∀ x : String, x ∈ ds ↔ x ∈ ext.devices) ∧
    (runMain fullScale machineRange a ext).1.filter isWrite = [] := by
  rcases hd : ext.devices with _ | ⟨d1, tl⟩
  · rw [hd] at hdev
    simp at hdev
  · rcases tl with _ | ⟨d2, tl2⟩
    · rw [hd] at hdev
      simp at hdev
    · unfold runMain
      rw [hnd, hd]
      exact ⟨⟨d1 :: d2 :: tl2, by simp, fun x => Iff.rfl⟩, by simp [isWrite]⟩

/-- C4 witness: the property at a concrete invocation with two discovered devices. -/
theorem ambiguous_device_match_witness :
    exArgs.no_discover = false ∧ 2 ≤ extTwo.devices.length ∧
    ((∃ ds : List String,
        (runMain 10 (2 ^ 15) exArgs extTwo).2 = some (Err.ambiguousDeviceMatch ds) ∧
        ∀ x : String, x ∈ ds ↔ x ∈ extTwo.devices) ∧
     (runMain 10 (2 ^ 15) exArgs extTwo).1.filter isWrite = []) :=
  ⟨rfl, by decide, ambiguous_device_match 10 (2 ^ 15) exArgs extTwo rfl (by decide)⟩

/-- C5 counterexample: at the spec's example input (I gain 1/5, i_limit 5 V, full
scale 10 V, machine range 2^15) the transmitted i_limit field is
round(5 * 2^15 / 10) = 16384, not the claimed round(0.2 * 5/10 * 2^15) = 3277:
the I gain does not enter the conversion of i_limit. -/
theorem i_limit_counterexample :
    (payloadDict 10 (2 ^ 15) exArgs).lookup "i_limit" = some (Val.int 16384) ∧
    round ((1 / 5 : ℚ) * 5 / 10 * 2 ^ 15) = 3277 ∧ (16384 : ℤ) ≠ 3277 := by
  refine ⟨?_, by norm_num [round_eq], by decide⟩
  simp [payloadDict, voltage_to_machine_units, exArgs, List.lookup]
  norm_num [round_eq]

/-- C5 (amended): at channel 0 with P=1.5, I=0.2, D=0, i_limit=5 V, full scale
10 V and machine range 2^15, a successful invocation issues exactly one write, to
path "/pid_ch/0"; its i_limit field equals round(5 * 2^15 / 10) = 16384, each
converted voltage field equals round(voltage * machine_range / full_scale), and
the p, i, d fields equal the input values unconverted. -/
theorem example_invocation_write :
    (configure 10 (2 ^ 15) exArgs "dev" extOk).1.filter isWrite =
      [Event.write (configPath 0) (payloadDict 10 (2 ^ 15) exArgs)] ∧
    configPath 0 = "/pid_ch/0" ∧
    (payloadDict 10 (2 ^ 15) exArgs).lookup "i_limit" = some (Val.int 16384) ∧
    round ((5 : ℚ) * 2 ^ 15 / 10) = 16384 ∧
    (payloadDict 10 (2 ^ 15) exArgs).lookup "x_offset" =
      some (Val.int (round ((0 : ℚ) * 2 ^ 15 / 10))) ∧
    (payloadDict 10 (2 ^ 15) exArgs).lookup "p" = some (Val.float (3 / 2)) ∧
    (payloadDict 10 (2 ^ 15) exArgs).lookup "i" = some (Val.float (1 / 5)) ∧
    (payloadDict 10 (2 ^ 15) exArgs).lookup "d" = some (Val.float 0) := by
  refine ⟨rfl, by decide, ?_, by norm_num [round_eq], rfl, rfl, rfl, rfl⟩
  simp [payloadDict, voltage_to_machine_units, exArgs, List.lookup]
  norm_num [round_eq]

/-- Selects the session-creation events of a trace. -/
def isConnect : Event → Bool
  | Event.connect _ _ => true
  | _ => false

/-- C6: with discovery disabled, the invocation makes no discovery call and every
session it opens targets the caller-supplied pattern unchanged. -/
theorem no_discover_uses_pattern (fullScale machineRange : ℚ) (a : Args) (ext : Ext)
    (hnd : a.no_discover = true) :
    (runMain fullScale machineRange a ext).1.filter isDiscover = [] ∧
    ∀ ad bk : String,
      Event.connect ad bk ∈ (runMain fullScale machineRange a ext).1 →
        ad = a.pattern := by
  unfold runMain
  rw [hnd]
  unfold configure
  by_cases hc : ext.connectOk
  · by_cases hw : ext.writeOk
    · refine ⟨by simp [hc, hw, isDiscover], ?_⟩
      intro ad bk hm
      simp [hc, hw] at hm
      exact hm.1
    · refine ⟨by simp [hc, hw, isDiscover], ?_⟩
      intro ad bk hm
      simp [hc, hw] at hm
      exact hm.1
  · refine ⟨by simp [hc, isDiscover], ?_⟩
    intro ad bk hm
    simp [hc] at hm

/-- Concrete arguments with discovery disabled. -/
def exArgsND : Args :=
  { broker := "mqtt", pattern := "dt/sinara/dual-pid/lab1", no_discover := true,
    channel := 1, sample_period := 0, x_offset := 0, y_min := -10, y_max := 10,
    y_offset := 0, p := 3 / 2, i := 1 / 5, d := 0, i_limit := 5 }

/-- C6 witness: the property at a concrete invocation with discovery disabled. -/
theorem no_discover_uses_pattern_witness :
    exArgsND.no_discover = true ∧
    ((runMain 10 (2 ^ 15) exArgsND extOk).1.filter isDiscover = [] ∧
     ∀ ad bk : String,
       Event.connect ad bk ∈ (runMain 10 (2 ^ 15) exArgsND extOk).1 →
         ad = exArgsND.pattern) :=
  ⟨rfl, no_discover_uses_pattern 10 (2 ^ 15) exArgsND extOk rfl⟩

/-- Any write event of `runMain` carries the channel path and the payload dict. -/
theorem write_mem_runMain (fullScale machineRange : ℚ) (a : Args) (ext : Ext)
    (path : String) (pay : List (String × Val))
    (h : Event.write path pay ∈ (runMain fullScale machineRange a ext).1) :
    path = configPath a.channel ∧ pay = payloadDict fullScale machineRange a := by
  unfold runMain at h
  by_cases hnd : a.no_discover
  · rw [hnd] at h
    simp only [if_true] at h
    exact write_mem_configure fullScale machineRange a a.pattern ext path pay h
  · rw [Bool.not_eq_true] at hnd
    rw [hnd] at h
    simp only [Bool.false_eq_true, if_false] at h
    rcases hd : ext.devices with _ | ⟨d1, _ | ⟨d2, tl⟩⟩ <;> rw [hd] at h
    · simp at h
    · rcases List.mem_cons.mp h with h1 | h2
      · exact absurd h1 (by simp)
      · exact write_mem_configure fullScale machineRange a d1 ext path pay h2
    · simp at h

/-- The trace of `configure` holds at most one write event. -/
theorem configure_write_count (fullScale machineRange : ℚ) (a : Args)
    (addr : String) (ext : Ext) :
    ((configure fullScale machineRange a addr ext).1.filter isWrite).length ≤ 1 := by
  unfold configure
  by_cases hc : ext.connectOk
  · by_cases hw : ext.writeOk
    · simp [hc, hw, isWrite]
    · simp [hc, hw, isWrite]
  · simp [hc]

/-- C7: every invocation issues at most one configuration write, and every write
it issues targets the given channel's configuration path. -/
theorem at_most_one_write (fullScale machineRange : ℚ) (a : Args) (ext : Ext) :
    ((runMain fullScale machineRange a ext).1.filter isWrite).length ≤ 1 ∧
    ∀ path pay, Event.write path pay ∈ (runMain fullScale machineRange a ext).1 →
      path = configPath a.channel := by
  refine ⟨?_, fun path pay h =>
    (write_mem_runMain fullScale machineRange a ext path pay h).1⟩
  unfold runMain
  by_cases hnd : a.no_discover
  · rw [hnd]
    simp only [if_true]
    exact configure_write_count fullScale machineRange a a.pattern ext
  · rw [Bool.not_eq_true] at hnd
    rw [hnd]
    simp only [Bool.false_eq_true, if_false]
    rcases hd : ext.devices with _ | ⟨d1, _ | ⟨d2, tl⟩⟩
    · simp [isWrite]
    · have : (Event.discover a.broker a.pattern ::
          (configure fullScale machineRange a d1 ext).1).filter isWrite =
          (configure fullScale machineRange a d1 ext).1.filter isWrite := by
        simp [isWrite]
      rw [this]
      exact configure_write_count fullScale machineRange a d1 ext
    · simp [isWrite]

/-- C7 witness: the property at the concrete example invocation. -/
theorem at_most_one_write_witness :
    ((runMain 10 (2 ^ 15) exArgs extOk).1.filter isWrite).length ≤ 1 ∧
    ∀ path pay, Event.write path pay ∈ (runMain 10 (2 ^ 15) exArgs extOk).1 →
      path = configPath exArgs.channel :=
  at_most_one_write 10 (2 ^ 15) exArgs extOk

/-- C8: the core performs no sanity validation of the physical parameters: for
every caller-supplied record, including records whose y_min exceeds y_max or
whose voltages lie outside the representable range, a successful session
converts and transmits the values exactly as given with no error, and the
outcome of the invocation never depends on the parameter record at all, so no
record can trigger a validation error. -/
theorem no_parameter_validation (fullScale machineRange : ℚ) (a a' : Args)
    (addr : String) (ext : Ext)
    (hc : ext.connectOk = true) (hw : ext.writeOk = true) :
    ((configure fullScale machineRange a addr ext).2 = none ∧
     Event.write (configPath a.channel) (payloadDict fullScale machineRange a) ∈
       (configure fullScale machineRange a addr ext).1) ∧
    ∀ ext' : Ext,
      (configure fullScale machineRange a addr ext').2 =
        (configure fullScale machineRange a' addr ext').2 := by
  constructor
  · unfold configure
    rw [hc, hw]
    exact ⟨rfl, List.Mem.tail _ (List.Mem.tail _ (List.Mem.head _))⟩
  · intro ext'
    unfold configure
    by_cases h1 : ext'.connectOk
    · by_cases h2 : ext'.writeOk
      · simp [h1, h2]
      · simp [h1, h2]
    · simp [h1]

/-- Concrete arguments with an inverted output range, y_min > y_max. -/
def exArgsBad : Args :=
  { broker := "mqtt", pattern := "dt/sinara/dual-pid/+", no_discover := false,
    channel := 0, sample_period := 0, x_offset := 0, y_min := 5, y_max := -5,
    y_offset := 0, p := 3 / 2, i := 1 / 5, d := 0, i_limit := 5 }

/-- Concrete arguments whose only pathology is an out-of-range voltage: the
input offset is a million volts against a ten-volt full scale, while the
output range stays ordered, y_min below y_max. -/
def exArgsHuge : Args :=
  { broker := "mqtt", pattern := "dt/sinara/dual-pid/+", no_discover := false,
    channel := 0, sample_period := 0, x_offset := 1000000, y_min := -10,
    y_max := 10, y_offset := 0, p := 3 / 2, i := 1 / 5, d := 0, i_limit := 5 }

/-- C8 witness: the property at a concrete record holding an out-of-range
voltage with an ordered output range, compared against the inverted-range
record. -/
theorem no_parameter_validation_witness :
    extOk.connectOk = true ∧ extOk.writeOk = true ∧
    (((configure 10 (2 ^ 15) exArgsHuge "dev" extOk).2 = none ∧
      Event.write (configPath exArgsHuge.channel)
          (payloadDict 10 (2 ^ 15) exArgsHuge) ∈
        (configure 10 (2 ^ 15) exArgsHuge "dev" extOk).1) ∧
     ∀ ext' : Ext,
       (configure 10 (2 ^ 15) exArgsHuge "dev" ext').2 =
         (configure 10 (2 ^ 15) exArgsBad "dev" ext').2) :=
  ⟨rfl, rfl,
   no_parameter_validation 10 (2 ^ 15) exArgsHuge exArgsBad "dev" extOk rfl rfl⟩

/-- C9 counterexample: in the concrete successful invocation the conversion event
does not precede the session-creation event; conversion happens only after the
session to the device is created. -/
theorem conversion_order_counterexample :
    ¬ ((configure 10 (2 ^ 15) exArgs "dev" extOk).1.indexOf Event.convert <
       (configure 10 (2 ^ 15) exArgs "dev" extOk).1.indexOf
         (Event.connect "dev" "mqtt")) := by
  intro h
  have h1 : (configure 10 (2 ^ 15) exArgs "dev" extOk).1.indexOf Event.convert = 1 :=
    rfl
  have h2 : (configure 10 (2 ^ 15) exArgs "dev" extOk).1.indexOf
      (Event.connect "dev" "mqtt") = 0 := rfl
  rw [h1, h2] at h
  exact absurd h (by decide)

/-- C9 (amended): a successful invocation with discovery follows the order
resolve, then open the session, then convert the units, then write, then
acknowledge: conversion completes after session acquisition and before the
single write. -/
theorem invocation_event_order (fullScale machineRange : ℚ) (a : Args) (ext : Ext)
    (dev : String) (hnd : a.no_discover = false) (hdev : ext.devices = [dev])
    (hc : ext.connectOk = true) (hw : ext.writeOk = true) :
    (runMain fullScale machineRange a ext).1 =
      [Event.discover a.broker a.pattern, Event.connect dev a.broker, Event.convert,
       Event.write (configPath a.channel) (payloadDict fullScale machineRange a),
       Event.ack] := by
  unfold runMain configure
  rw [hnd, hdev, hc, hw]
  simp

/-- C9 witness: the amended order at the concrete example invocation. -/
theorem invocation_event_order_witness :
    exArgs.no_discover = false ∧ extOk.devices = ["dt/sinara/dual-pid/lab1"] ∧
    extOk.connectOk = true ∧ extOk.writeOk = true ∧
    (runMain 10 (2 ^ 15) exArgs extOk).1 =
      [Event.discover exArgs.broker exArgs.pattern,
       Event.connect "dt/sinara/dual-pid/lab1" exArgs.broker, Event.convert,
       Event.write (configPath exArgs.channel) (payloadDict 10 (2 ^ 15) exArgs),
       Event.ack] :=
  ⟨rfl, rfl, rfl, rfl,
   invocation_event_order 10 (2 ^ 15) exArgs extOk "dt/sinara/dual-pid/lab1"
     rfl rfl rfl rfl⟩

/-- Replaces the sample-period argument, leaving every other argument unchanged. -/
def setSamplePeriod (a : Args) (sp : ℚ) : Args :=
  { a with sample_period := sp }

/-- C10: the whole invocation, its trace (path and all payload fields) and its
outcome, is independent of the sample-period argument. -/
theorem sample_period_independent (fullScale machineRange : ℚ) (a : Args)
    (sp sp' : ℚ) (ext : Ext) :
    runMain fullScale machineRange (setSamplePeriod a sp) ext =
      runMain fullScale machineRange (setSamplePeriod a sp') ext := by
  cases a
  rfl

end SetPid
